import Mathlib

/-!
# Rotating cube renderer (`Source.cpp`)

A shallow embedding of the program in `Source.cpp`:

* the static geometry of `main` (`vertices`, `indices`), the two
  `glVertexAttribPointer` declarations and the `glDrawElements` call;
* the GLM templates and GLSL operators behind the per-frame transform chain
  of `main` and the vertex shader, over an arbitrary field of scalars;
* `initializeGLEW`, `processInput`, `compileShaders` and `main` as functions
  of the outcomes of the window-system and GL calls, producing the sequence of
  observable calls and the exit code.

Every `GLfloat` literal of the source (`0.5f`, `1.0f`, `0.0f`, `0.1f`, ...) is
read as the rational number it denotes. The results on the transforms are
stated over the real numbers with the exact `sqrt`, `sin`, `cos` and `tan`;
rounding of `float` is not modelled.
-/

namespace Cube

/-! ## Static geometry -/

/-- The array `GLfloat vertices[]` of `main`: 8 rows of
`x, y, z, r, g, b`. -/
def vertices : List ℚ :=
  [ -0.5, -0.5, -0.5,   1.0, 0.0, 0.0,
     0.5, -0.5, -0.5,   0.0, 1.0, 0.0,
     0.5,  0.5, -0.5,   0.0, 0.0, 1.0,
    -0.5,  0.5, -0.5,   1.0, 1.0, 0.0,
    -0.5, -0.5,  0.5,   1.0, 0.0, 1.0,
     0.5, -0.5,  0.5,   0.0, 1.0, 1.0,
     0.5,  0.5,  0.5,   1.0, 1.0, 1.0,
    -0.5,  0.5,  0.5,   0.5, 0.5, 0.5 ]

/-- The array `GLuint indices[]` of `main`. -/
def indices : List Nat :=
  [ 0, 1, 2,  0, 2, 3,
    4, 5, 6,  4, 6, 7,
    0, 1, 5,  0, 5, 4,
    2, 3, 7,  2, 7, 6,
    0, 3, 7,  0, 7, 4,
    1, 2, 6,  1, 6, 5 ]

/-- The count argument of `glDrawElements(GL_TRIANGLES, 36, GL_UNSIGNED_INT, 0)`. -/
def drawCount : Nat := 36

/-- The value of `sizeof(GLfloat)`, in bytes. -/
def sizeofGLfloat : Nat := 4

/-- The value of `sizeof(GLuint)`, in bytes. -/
def sizeofGLuint : Nat := 4

/-- One `glVertexAttribPointer(slot, size, GL_FLOAT, GL_FALSE, stride, pointer)`
call; `stride` and `pointer` are in bytes, as in the source. -/
structure AttribPointer where
  slot : Nat
  size : Nat
  stride : Nat
  pointer : Nat
  deriving DecidableEq, Repr

/-- The call `glVertexAttribPointer(0, 3, GL_FLOAT, GL_FALSE, 6 * sizeof(GLfloat), (GLvoid*)0)`. -/
def positionAttrib : AttribPointer :=
  { slot := 0, size := 3, stride := 6 * sizeofGLfloat, pointer := 0 }

/-- The call `glVertexAttribPointer(1, 3, GL_FLOAT, GL_FALSE, 6 * sizeof(GLfloat),
(GLvoid*)(3 * sizeof(GLfloat)))`. -/
def colorAttrib : AttribPointer :=
  { slot := 1, size := 3, stride := 6 * sizeofGLfloat, pointer := 3 * sizeofGLfloat }

/-- The value of `sizeof(vertices)` passed to `glBufferData`, in bytes. -/
def vertexBufferBytes : Nat := vertices.length * sizeofGLfloat

/-- Byte offset in the bound array buffer of component `c` of attribute `a`
for the vertex with index `i`. -/
def fetchByte (a : AttribPointer) (i c : Nat) : Nat :=
  a.pointer + i * a.stride + c * sizeofGLfloat

/-- Offset of that component counted in floats of `vertices`. -/
def fetchFloat (a : AttribPointer) (i c : Nat) : Nat :=
  fetchByte a i c / sizeofGLfloat

/-- The float offsets read for attribute `a` of vertex `i`. -/
def fetchRange (a : AttribPointer) (i : Nat) : List Nat :=
  (List.range a.size).map (fetchFloat a i)

/-- A point or direction of space. -/
structure V3 (K : Type) where
  x : K
  y : K
  z : K
  deriving DecidableEq, Repr

/-- Attribute `a` of vertex `i` as the vertex stage receives it: the three
floats fetched from `vertices`. -/
def fetchAttrib (a : AttribPointer) (i : Nat) : V3 ℚ :=
  { x := vertices.getD (fetchFloat a i 0) 0
    y := vertices.getD (fetchFloat a i 1) 0
    z := vertices.getD (fetchFloat a i 2) 0 }

/-- Position (`aPos`) of vertex `i`. -/
def position (i : Nat) : V3 ℚ := fetchAttrib positionAttrib i

/-- Colour (`aColor`) of vertex `i`. -/
def color (i : Nat) : V3 ℚ := fetchAttrib colorAttrib i

/-- The three indices of triangle `k` of the `GL_TRIANGLES` draw:
entries `3k`, `3k+1`, `3k+2` of the index buffer. -/
def triangle (k : Nat) : List Nat :=
  [indices.getD (3 * k) 0, indices.getD (3 * k + 1) 0, indices.getD (3 * k + 2) 0]

/-- Coordinate `a` (0 = x, 1 = y, 2 = z) of a point. -/
def coord (p : V3 ℚ) (a : Fin 3) : ℚ :=
  match a with
  | 0 => p.x
  | 1 => p.y
  | 2 => p.z

/-- A face of the cube: a coordinate axis and the side (`true` for `+0.5`,
`false` for `-0.5`). -/
abbrev Face := Fin 3 × Bool

/-- The coordinate value of a face. -/
def Face.value (f : Face) : ℚ := if f.2 then 0.5 else -0.5

/-- Vertex `i` lies on face `f`. -/
def onFace (f : Face) (i : Nat) : Bool := decide (coord (position i) f.1 = f.value)

/-- All three vertices of triangle `k` lie on face `f`. -/
def triOnFace (f : Face) (k : Nat) : Bool := (triangle k).all (onFace f)

/-- The triangles (numbers `0..11`) lying on face `f`. -/
def faceTriangles (f : Face) : List Nat := (List.range 12).filter (triOnFace f)

/-- The four corners of face `f` among the 8 vertices. -/
def faceCorners (f : Face) : List Nat := (List.range 8).filter (onFace f)

/-- The six faces. -/
def allFaces : List Face :=
  [(0, false), (0, true), (1, false), (1, true), (2, false), (2, true)]

/-- Two vertices of face `f` are diagonally opposite corners of it: they
differ in both coordinates other than the face's axis. -/
def diagonal (f : Face) (i j : Nat) : Bool :=
  (List.finRange 3).all fun a =>
    a = f.1 || decide (coord (position i) a ≠ coord (position j) a)

/-- The vertices two triangles have in common. -/
def sharedVertices (k l : Nat) : List Nat :=
  (triangle k).filter fun i => (triangle l).contains i

/-- The vertices two triangles reference together. -/
def coveredVertices (k l : Nat) : List Nat := (triangle k ++ triangle l).dedup

/-- The point `(±0.5, ±0.5, ±0.5)` with the signs given (`true` for `+`). -/
def corner (sx sy sz : Bool) : V3 ℚ :=
  ⟨if sx then 0.5 else -0.5, if sy then 0.5 else -0.5, if sz then 0.5 else -0.5⟩

/-- The vertices (numbers `0..7`) whose position is `p`. -/
def verticesAt (p : V3 ℚ) : List Nat := (List.range 8).filter fun i => position i = p

/-- Sum of coordinate `a` over the 8 vertex positions. -/
def coordSum (a : Fin 3) : ℚ := ((List.range 8).map fun i => coord (position i) a).sum

/-! ## Vectors and matrices (`glm::vec3`, `glm::vec4`, `glm::mat4`)

The scalar type `K` stands for `float`; the functions below are the GLM
templates and GLSL operators the program uses, written over any field. The
elementary functions of the C++ runtime they call are passed in `MathFns`. -/

/-- The elementary functions and the constant the GLM routines call. -/
structure MathFns (K : Type) where
  sqrt : K → K
  sin : K → K
  cos : K → K
  tan : K → K
  pi : K

/-- The elementary functions are the exact ones of real analysis, on the
real numbers ("exact real arithmetic"). -/
def MathFns.IsReal (R : MathFns ℝ) : Prop :=
  R = ⟨Real.sqrt, Real.sin, Real.cos, Real.tan, Real.pi⟩

/-- A homogeneous point (`vec4`). -/
structure V4 (K : Type) where
  x : K
  y : K
  z : K
  w : K
  deriving DecidableEq, Repr

/-- A `mat4`: four columns, `c0 .. c3`, as GLM stores it (`m[c][r]` is row
`r` of column `c`). -/
structure Mat4 (K : Type) where
  c0 : V4 K
  c1 : V4 K
  c2 : V4 K
  c3 : V4 K
  deriving DecidableEq, Repr

section Algebra
variable {K : Type} [Field K]

/-- Read the rational literals of a point as scalars of `K`. -/
def V3.cast (p : V3 ℚ) : V3 K := ⟨(p.x : K), (p.y : K), (p.z : K)⟩

/-- Componentwise difference `a - b` of `vec3`. -/
def V3.sub (a b : V3 K) : V3 K := ⟨a.x - b.x, a.y - b.y, a.z - b.z⟩

/-- The product `v * k` of a `vec3` and a scalar. -/
def V3.scale (v : V3 K) (k : K) : V3 K := ⟨v.x * k, v.y * k, v.z * k⟩

/-- Modelled from the spec: `glm::dot` on `vec3`, a GLM helper of the templates
below, not part of `Source.cpp`: the scalar product. -/
def dot (a b : V3 K) : K := a.x * b.x + a.y * b.y + a.z * b.z

/-- Modelled from the spec: `glm::cross`, a GLM helper of the templates below,
not part of `Source.cpp`: the vector product. -/
def cross (a b : V3 K) : V3 K :=
  ⟨a.y * b.z - b.y * a.z, a.z * b.x - b.z * a.x, a.x * b.y - b.x * a.y⟩

/-- Modelled from the spec: `glm::inversesqrt`, a GLM helper of the templates
below, not part of `Source.cpp`. -/
def inversesqrt (m : MathFns K) (a : K) : K := 1 / m.sqrt a

/-- Modelled from the spec: `glm::normalize` on `vec3`, a GLM helper of the
templates below, not part of `Source.cpp`: `v * inversesqrt(dot(v, v))`. -/
def normalize (m : MathFns K) (v : V3 K) : V3 K := v.scale (inversesqrt m (dot v v))

/-- Modelled from the spec: `glm::radians`, a GLM template whose body is not
part of `Source.cpp`; the spec reads `glm::radians(45.0f)` as "45° vertical
FOV": degrees times π/180 (the GLM template multiplies by the decimal
expansion of π/180). -/
def radians (m : MathFns K) (degrees : K) : K := degrees * (m.pi / 180)

/-- Componentwise sum of `vec4`. -/
def V4.add (a b : V4 K) : V4 K := ⟨a.x + b.x, a.y + b.y, a.z + b.z, a.w + b.w⟩

/-- The product `v * k` of a `vec4` and a scalar. -/
def V4.scale (v : V4 K) (k : K) : V4 K := ⟨v.x * k, v.y * k, v.z * k, v.w * k⟩

/-- The GLSL constructor `vec4(v, w)`. -/
def vec4 (v : V3 K) (w : K) : V4 K := ⟨v.x, v.y, v.z, w⟩

/-- The constructor `glm::mat4(d)`: `d` on the diagonal, zero elsewhere. -/
def Mat4.diag (d : K) : Mat4 K :=
  ⟨⟨d, 0, 0, 0⟩, ⟨0, d, 0, 0⟩, ⟨0, 0, d, 0⟩, ⟨0, 0, 0, d⟩⟩

/-- The product `mat4 * vec4`. -/
def Mat4.mulVec (a : Mat4 K) (v : V4 K) : V4 K :=
  (((a.c0.scale v.x).add (a.c1.scale v.y)).add (a.c2.scale v.z)).add (a.c3.scale v.w)

/-- The product `mat4 * mat4`: each column of `b` is multiplied by `a`. -/
def Mat4.mul (a b : Mat4 K) : Mat4 K :=
  ⟨a.mulVec b.c0, a.mulVec b.c1, a.mulVec b.c2, a.mulVec b.c3⟩

/-- Modelled from the spec: `glm::rotate(m, angle, v)` is a GLM template
(`gtc/matrix_transform.hpp`) whose body is not part of `Source.cpp`; the spec
names it "rotate by `elapsed_seconds` radians about axis". The body follows the
GLM template: `m` times the rotation by `angle` about `normalize(v)`. -/
def rotate (f : MathFns K) (m : Mat4 K) (angle : K) (v : V3 K) : Mat4 K :=
  let c := f.cos angle
  let s := f.sin angle
  let axis := normalize f v
  let temp := axis.scale (1 - c)
  let r00 := c + temp.x * axis.x
  let r01 := temp.x * axis.y + s * axis.z
  let r02 := temp.x * axis.z - s * axis.y
  let r10 := temp.y * axis.x - s * axis.z
  let r11 := c + temp.y * axis.y
  let r12 := temp.y * axis.z + s * axis.x
  let r20 := temp.z * axis.x + s * axis.y
  let r21 := temp.z * axis.y - s * axis.x
  let r22 := c + temp.z * axis.z
  { c0 := ((m.c0.scale r00).add (m.c1.scale r01)).add (m.c2.scale r02)
    c1 := ((m.c0.scale r10).add (m.c1.scale r11)).add (m.c2.scale r12)
    c2 := ((m.c0.scale r20).add (m.c1.scale r21)).add (m.c2.scale r22)
    c3 := m.c3 }

/-- Modelled from the spec: `glm::lookAt(eye, center, up)` is a GLM template
whose body is not part of `Source.cpp`; the spec names it a "look-at camera at
(2,2,2) toward origin, up = +Y". The body follows the right-handed GLM
template, the default (`Source.cpp` defines no `GLM_FORCE_LEFT_HANDED`). -/
def lookAt (m : MathFns K) (eye center up : V3 K) : Mat4 K :=
  let f := normalize m (center.sub eye)
  let s := normalize m (cross f up)
  let u := cross s f
  { c0 := ⟨s.x, u.x, -f.x, 0⟩
    c1 := ⟨s.y, u.y, -f.y, 0⟩
    c2 := ⟨s.z, u.z, -f.z, 0⟩
    c3 := ⟨-dot s eye, -dot u eye, dot f eye, 1⟩ }

/-- Modelled from the spec: `glm::perspective(fovy, aspect, zNear, zFar)` is a
GLM template whose body is not part of `Source.cpp`; the spec names it a
"perspective, 45° vertical FOV, aspect 800/600, near 0.1, far 100.0". The body
follows the right-handed GLM template with depth range `-1 .. 1`, the default
(`Source.cpp` defines no `GLM_FORCE_DEPTH_ZERO_TO_ONE`). -/
def perspective (m : MathFns K) (fovy aspect zNear zFar : K) : Mat4 K :=
  let tanHalfFovy := m.tan (fovy / 2)
  { c0 := ⟨1 / (aspect * tanHalfFovy), 0, 0, 0⟩
    c1 := ⟨0, 1 / tanHalfFovy, 0, 0⟩
    c2 := ⟨0, 0, -(zFar + zNear) / (zFar - zNear), -1⟩
    c3 := ⟨0, 0, -(2 * zFar * zNear) / (zFar - zNear), 0⟩ }

/-! ## The per-frame transforms of `main` -/

/-- The rotation axis `glm::vec3(0.5f, 1.0f, 0.0f)`. -/
def rotationAxis : V3 K := ⟨0.5, 1.0, 0.0⟩

/-- The matrix `model` of a frame whose `glfwGetTime()` is `t`:
`glm::rotate(glm::mat4(1.0f), t, glm::vec3(0.5f, 1.0f, 0.0f))`. -/
def modelMatrix (m : MathFns K) (t : K) : Mat4 K :=
  rotate m (Mat4.diag 1.0) t rotationAxis

/-- The matrix `view` of every frame. -/
def viewMatrix (m : MathFns K) : Mat4 K :=
  lookAt m ⟨2.0, 2.0, 2.0⟩ ⟨0.0, 0.0, 0.0⟩ ⟨0.0, 1.0, 0.0⟩

/-- The matrix `projection` of every frame. -/
def projectionMatrix (m : MathFns K) : Mat4 K :=
  perspective m (radians m 45.0) (800.0 / 600.0) 0.1 100.0

/-! ## The shading program -/

/-- The outputs of the vertex stage. -/
structure VertexOut (K : Type) where
  gl_Position : V4 K
  fragColor : V3 K

/-- The function `main` of `vertexShaderSource`:
`gl_Position = projection * view * model * vec4(aPos, 1.0); fragColor = aColor;`
(GLSL multiplies from the left: `((projection * view) * model) * vec4(..)`). -/
def vertexShader (projection view model : Mat4 K) (aPos aColor : V3 K) : VertexOut K :=
  { gl_Position := (((projection.mul view).mul model).mulVec (vec4 aPos 1.0))
    fragColor := aColor }

/-- The function `main` of `fragmentShaderSource`: `FragColor = vec4(fragColor, 1.0)`. -/
def fragmentShader (fragColor : V3 K) : V4 K := vec4 fragColor 1.0

/-- The vertex-stage outputs of `glDrawElements(GL_TRIANGLES, 36, GL_UNSIGNED_INT, 0)`
with the given uniforms: one per index read from the index buffer. -/
def drawElements (projection view model : Mat4 K) : List (VertexOut K) :=
  (indices.take drawCount).map fun i =>
    vertexShader projection view model (position i).cast (color i).cast

/-- View-space position of a point `p` of the model in a frame at time `t`:
`view * (model * vec4(p, 1))`. -/
def viewSpace (m : MathFns K) (t : K) (p : V3 K) : V4 K :=
  (viewMatrix m).mulVec ((modelMatrix m t).mulVec (vec4 p 1.0))

end Algebra

/-! ## The program: calls, environment, control flow -/

/-- The two shader kinds passed to `glCreateShader`. -/
inductive ShaderKind where
  | vertex
  | fragment
  deriving DecidableEq, Repr

/-- The two buffer targets the program binds. -/
inductive Target where
  | arrayBuffer
  | elementArrayBuffer
  deriving DecidableEq, Repr

/-- The observable calls of the program, in the order it makes them: calls
into GLFW, GLEW and OpenGL, writes to `std::cerr` (one `cerr` per statement
ending in `std::endl`) and `exit`. The `glViewport` of
`framebuffer_size_callback`, which GLFW runs inside `glfwPollEvents` when the
window is resized, is not listed. -/
inductive Call (K : Type) where
  | glfwInit
  | cerr (text : String)
  | exit (code : Int)
  | glfwCreateWindow (width height : Nat) (title : String)
  | glfwTerminate
  | glfwMakeContextCurrent
  | glfwSetFramebufferSizeCallback
  | glewInit
  | glEnableDepthTest
  | glGenVertexArrays
  | glGenBuffers
  | glBindVertexArray (vao : Nat)
  | glBindBuffer (target : Target) (buffer : Nat)
  | glBufferData (target : Target) (bytes : Nat)
  | glVertexAttribPointer (a : AttribPointer)
  | glEnableVertexAttribArray (slot : Nat)
  | glCreateShader (kind : ShaderKind)
  | glShaderSource (shader : Nat) (kind : ShaderKind)
  | glCompileShader (shader : Nat)
  | glGetShaderiv (shader : Nat)
  | glGetShaderInfoLog (shader : Nat)
  | glCreateProgram
  | glAttachShader (program shader : Nat)
  | glLinkProgram (program : Nat)
  | glGetProgramiv (program : Nat)
  | glGetProgramInfoLog (program : Nat)
  | glDeleteShader (shader : Nat)
  | glUseProgram (program : Nat)
  | glGetUniformLocation (program : Nat) (name : String)
  | glfwWindowShouldClose
  | glfwGetKey
  | glfwSetWindowShouldClose (value : Bool)
  | glClearColor (r g b a : K)
  | glClear
  | glfwGetTime
  | glUniformMatrix4fv (location : Nat) (value : Mat4 K)
  | glDrawElements (count : Nat)
  | glfwSwapBuffers
  | glfwPollEvents
  | glDeleteVertexArrays (vao : Nat)
  | glDeleteBuffers (buffer : Nat)
  deriving DecidableEq, Repr

/-- What the libraries answer to the program's calls. -/
structure Env (K : Type) where
  /-- Result of `glfwInit()` is nonzero. -/
  glfwInitOk : Bool
  /-- Result of `glfwCreateWindow` is a non-null window. -/
  windowOk : Bool
  /-- Result of `glewInit()` is `GLEW_OK`. -/
  glewOk : Bool
  /-- Names written by `glGenVertexArrays` and the two `glGenBuffers`. -/
  vao : Nat
  vbo : Nat
  ebo : Nat
  /-- Results of the two `glCreateShader` and of `glCreateProgram`. -/
  vertexShader : Nat
  fragmentShader : Nat
  program : Nat
  /-- Values written to `success` by `glGetShaderiv` (twice) and `glGetProgramiv`. -/
  vertexCompiled : Bool
  fragmentCompiled : Bool
  linked : Bool
  /-- Texts written by `glGetShaderInfoLog` (twice) and `glGetProgramInfoLog`. -/
  vertexLog : String
  fragmentLog : String
  linkLog : String
  /-- Results of the three `glGetUniformLocation`. -/
  modelLoc : Nat
  viewLoc : Nat
  projectionLoc : Nat
  /-- In iteration `i` of the loop, `glfwGetKey(window, GLFW_KEY_ESCAPE) == GLFW_PRESS`. -/
  escape : Nat → Bool
  /-- In iteration `i` of the loop, `glfwPollEvents` delivers a close request
  of the window system (which sets the window's close flag). -/
  closeRequest : Nat → Bool
  /-- In iteration `i` of the loop, the value of `(float)glfwGetTime()`. -/
  time : Nat → K

/-- How the process ends: the exit code and the calls made. -/
structure Outcome (K : Type) where
  exitCode : Int
  calls : List (Call K)
  deriving DecidableEq, Repr

section Program
variable {K : Type} [Field K]

/-- The function `initializeGLEW`: the calls made, and `some code` when it
ends the process with `exit(code)`. -/
def initializeGLEW (env : Env K) : List (Call K) × Option Int :=
  if env.glewOk then ([.glewInit], none)
  else ([.glewInit, .cerr "Failed to initialize GLEW", .exit (-1)], some (-1))

/-- The function `processInput` of iteration `i`, entered with the window's
close flag `flag`: the calls made and the close flag afterwards. -/
def processInput (env : Env K) (i : Nat) (flag : Bool) : List (Call K) × Bool :=
  if env.escape i then ([.glfwGetKey, .glfwSetWindowShouldClose true], true)
  else ([.glfwGetKey], flag)

/-- The function `compileShaders`: the calls made and the value returned. -/
def compileShaders (env : Env K) : List (Call K) × Nat :=
  let vertexShader := env.vertexShader
  let c1 : List (Call K) :=
    [.glCreateShader .vertex, .glShaderSource vertexShader .vertex,
     .glCompileShader vertexShader, .glGetShaderiv vertexShader]
  let c2 : List (Call K) :=
    if !env.vertexCompiled then
      [.glGetShaderInfoLog vertexShader,
       .cerr ("ERROR::SHADER::VERTEX::COMPILATION_FAILED\n" ++ env.vertexLog)]
    else []
  let fragmentShader := env.fragmentShader
  let c3 : List (Call K) :=
    [.glCreateShader .fragment, .glShaderSource fragmentShader .fragment,
     .glCompileShader fragmentShader, .glGetShaderiv fragmentShader]
  let c4 : List (Call K) :=
    if !env.fragmentCompiled then
      [.glGetShaderInfoLog fragmentShader,
       .cerr ("ERROR::SHADER::FRAGMENT::COMPILATION_FAILED\n" ++ env.fragmentLog)]
    else []
  let shaderProgram := env.program
  let c5 : List (Call K) :=
    [.glCreateProgram, .glAttachShader shaderProgram vertexShader,
     .glAttachShader shaderProgram fragmentShader, .glLinkProgram shaderProgram,
     .glGetProgramiv shaderProgram]
  let c6 : List (Call K) :=
    if !env.linked then
      [.glGetProgramInfoLog shaderProgram,
       .cerr ("ERROR::SHADER::PROGRAM::LINKING_FAILED\n" ++ env.linkLog)]
    else []
  let c7 : List (Call K) := [.glDeleteShader vertexShader, .glDeleteShader fragmentShader]
  (c1 ++ c2 ++ c3 ++ c4 ++ c5 ++ c6 ++ c7, shaderProgram)

/-- The geometry upload of `main`, from `glEnable(GL_DEPTH_TEST)` to
`glBindVertexArray(0)`. -/
def uploadGeometry (env : Env K) : List (Call K) :=
  [.glEnableDepthTest, .glGenVertexArrays, .glGenBuffers, .glGenBuffers,
   .glBindVertexArray env.vao,
   .glBindBuffer .arrayBuffer env.vbo,
   .glBufferData .arrayBuffer vertexBufferBytes,
   .glBindBuffer .elementArrayBuffer env.ebo,
   .glBufferData .elementArrayBuffer (indices.length * sizeofGLuint),
   .glVertexAttribPointer positionAttrib, .glEnableVertexAttribArray 0,
   .glVertexAttribPointer colorAttrib, .glEnableVertexAttribArray 1,
   .glBindBuffer .arrayBuffer 0, .glBindVertexArray 0]

/-- The body of the `while` loop of `main` in iteration `i`, entered with the
close flag `flag` (the loop test has been passed): the calls made and the
close flag at the end of the iteration. -/
def frameBody (m : MathFns K) (env : Env K) (i : Nat) (flag : Bool) :
    List (Call K) × Bool :=
  let input := processInput env i flag
  let model := modelMatrix m (env.time i)
  let view := viewMatrix m
  let projection := projectionMatrix m
  let calls : List (Call K) :=
    [.glClearColor 0.1 0.1 0.1 1.0, .glClear, .glfwGetTime,
     .glUniformMatrix4fv env.modelLoc model,
     .glUniformMatrix4fv env.viewLoc view,
     .glUniformMatrix4fv env.projectionLoc projection,
     .glBindVertexArray env.vao, .glDrawElements drawCount, .glBindVertexArray 0,
     .glfwSwapBuffers, .glfwPollEvents]
  (input.1 ++ calls, input.2 || env.closeRequest i)

/-- The `while (!glfwWindowShouldClose(window))` loop of `main` from iteration
`i` on, entered with the close flag `flag`: the calls made until the loop is
left, or `none` when it is not left within `fuel` evaluations of the test. -/
def frameLoop (m : MathFns K) (env : Env K) : Nat → Nat → Bool → Option (List (Call K))
  | 0, _, _ => none
  | fuel + 1, i, flag =>
    if flag then some [.glfwWindowShouldClose]
    else
      let body := frameBody m env i flag
      (frameLoop m env fuel (i + 1) body.2).map fun rest =>
        .glfwWindowShouldClose :: (body.1 ++ rest)

/-- The shutdown of `main` after the loop. -/
def teardown (env : Env K) : List (Call K) :=
  [.glDeleteVertexArrays env.vao, .glDeleteBuffers env.vbo, .glDeleteBuffers env.ebo,
   .glfwTerminate]

/-- The part of `main` between `initializeGLEW()` and the loop: geometry
upload, `compileShaders()`, `glUseProgram` on its result and the three uniform
look-ups. -/
def setup (env : Env K) : List (Call K) :=
  let shaders := compileShaders env
  let shaderProgram := shaders.2
  uploadGeometry env ++ shaders.1 ++
    [.glUseProgram shaderProgram,
     .glGetUniformLocation shaderProgram "model",
     .glGetUniformLocation shaderProgram "view",
     .glGetUniformLocation shaderProgram "projection"]

/-- The calls of `main` up to `initializeGLEW()`, when the window exists. -/
def start : List (Call K) :=
  [.glfwInit, .glfwCreateWindow 800 600 "OpenGL 3D Cube",
   .glfwMakeContextCurrent, .glfwSetFramebufferSizeCallback]

/-- The function `main`: how the process ends, or `none` when the frame loop
is not left within `fuel` evaluations of its test. A new window's close flag
is unset. -/
def main (m : MathFns K) (env : Env K) (fuel : Nat) : Option (Outcome K) :=
  if !env.glfwInitOk then
    some ⟨-1, [.glfwInit, .cerr "GLFW initialization failed!"]⟩
  else if !env.windowOk then
    some ⟨-1, [.glfwInit, .glfwCreateWindow 800 600 "OpenGL 3D Cube",
      .cerr "Failed to create GLFW window", .glfwTerminate]⟩
  else
    let glew := initializeGLEW env
    match glew.2 with
    | some code => some ⟨code, start ++ glew.1⟩
    | none =>
      (frameLoop m env fuel 0 false).map fun loop =>
        ⟨0, start ++ glew.1 ++ setup env ++ loop ++ teardown env⟩

/-- The calls of iterations `i, i+1, .., i+n-1` of the loop when none of them
is entered with the close flag set: each is the loop test and the body. -/
def frames (m : MathFns K) (env : Env K) (i n : Nat) : List (Call K) :=
  (List.range n).flatMap fun j => .glfwWindowShouldClose :: (frameBody m env (i + j) false).1

/-- A close request reaches the window in iteration `i`: the escape key is
seen by `processInput` or the window system asks during `glfwPollEvents`. -/
def closeSeen (env : Env K) (i : Nat) : Bool := env.escape i || env.closeRequest i

/-- An indexed draw. -/
def Call.isDraw : Call K → Bool
  | .glDrawElements _ => true
  | _ => false

/-- Presentation of a frame. -/
def Call.isPresent : Call K → Bool
  | .glfwSwapBuffers => true
  | _ => false

/-- An evaluation of the loop test. -/
def Call.isLoopTest : Call K → Bool
  | .glfwWindowShouldClose => true
  | _ => false

/-- A release of a geometry object or of the window system. -/
def Call.isRelease : Call K → Bool
  | .glDeleteVertexArrays _ => true
  | .glDeleteBuffers _ => true
  | .glfwTerminate => true
  | _ => false

/-- A write to the error stream. -/
def Call.isCerr : Call K → Bool
  | .cerr _ => true
  | _ => false

/-- A call that ends the process. -/
def Call.isExit : Call K → Bool
  | .exit _ => true
  | _ => false

/-- A release of a shader object. -/
def Call.isDeleteShader : Call K → Bool
  | .glDeleteShader _ => true
  | _ => false

/-- A write to the window's close flag by the program. -/
def Call.isSetClose : Call K → Bool
  | .glfwSetWindowShouldClose _ => true
  | _ => false

/-- A use of a program object. -/
def Call.isUseProgram : Call K → Bool
  | .glUseProgram _ => true
  | _ => false

/-- A clearing of the window's close flag by the program. -/
def Call.isClearClose : Call K → Bool
  | .glfwSetWindowShouldClose false => true
  | _ => false

/-- The diagnostic the program writes when a build step fails. -/
def diagnostic (ok : Bool) (header log : String) : List (Call K) :=
  if ok then [] else [.cerr (header ++ log)]

/-- A stand-in for the C++ runtime's functions over the rationals, for running
the program model on concrete inputs: truncated series and a Newton step. -/
def testMath : MathFns ℚ :=
  { sqrt := fun a => (a + 1) / 2
    sin := fun a => a - a ^ 3 / 6
    cos := fun a => 1 - a ^ 2 / 2
    tan := fun a => a + a ^ 3 / 3
    pi := 355 / 113 }

/-- A test environment: everything succeeds, frames are 1/60 s apart, and the
escape key is down from iteration `n` on. -/
def escapeAt (n : Nat) : Env ℚ :=
  { glfwInitOk := true, windowOk := true, glewOk := true
    vao := 1, vbo := 1, ebo := 2
    vertexShader := 1, fragmentShader := 2, program := 3
    vertexCompiled := true, fragmentCompiled := true, linked := true
    vertexLog := "", fragmentLog := "", linkLog := ""
    modelLoc := 0, viewLoc := 1, projectionLoc := 2
    escape := fun i => decide (n ≤ i)
    closeRequest := fun _ => false
    time := fun i => i / 60 }

/-- A test environment in which `glewInit` fails. -/
def glewFails : Env ℚ := { escapeAt 0 with glewOk := false }

/-- A test environment in which the fragment shader does not compile and the
program does not link; the escape key is down from iteration 1 on. -/
def buildFails : Env ℚ :=
  { escapeAt 1 with
    fragmentCompiled := false, fragmentLog := "0(5) : error C0000: syntax error"
    linked := false, linkLog := "Fragment info" }

end Program

/-! ## Theorems: static geometry -/

/-- C1: the index buffer has exactly 36 entries, which is the count given to
`glDrawElements`; every entry is in the range 0..7; and in each of the 12
consecutive triples (entries `3k`, `3k+1`, `3k+2`) the three indices are
pairwise distinct. -/
theorem index_buffer_wellformed :
    indices.length = 36 ∧ drawCount = indices.length ∧
    (∀ i ∈ indices, 0 ≤ i ∧ i ≤ 7) ∧
    (∀ k < 12, 3 * k + 2 < indices.length ∧
      triangle k = [indices.getD (3 * k) 0, indices.getD (3 * k + 1) 0,
        indices.getD (3 * k + 2) 0] ∧
      (triangle k).Pairwise (fun a b => a ≠ b)) := by
  decide

/-- C2: the vertex array holds 48 floats, 8 vertices of 6 floats; the position
of vertex `i` is floats `6i, 6i+1, 6i+2`; each of the 8 points
`(±0.5, ±0.5, ±0.5)` is the position of exactly one vertex; two positions
that differ in a coordinate differ there by exactly 1 (the edge length); and
the positions sum to zero in every coordinate (the centroid is the origin). -/
theorem vertex_array_is_unit_cube :
    vertices.length = 48 ∧ vertices.length = 8 * 6 ∧
    (∀ i < 8, position i =
      ⟨vertices.getD (6 * i) 0, vertices.getD (6 * i + 1) 0, vertices.getD (6 * i + 2) 0⟩) ∧
    (∀ sx sy sz : Bool, (verticesAt (corner sx sy sz)).length = 1) ∧
    (∀ i < 8, ∃ sx sy sz : Bool, position i = corner sx sy sz) ∧
    (∀ i < 8, ∀ j < 8, ∀ a : Fin 3, coord (position i) a ≠ coord (position j) a →
      |coord (position i) a - coord (position j) a| = 1) ∧
    (∀ a : Fin 3, coordSum a = 0) := by
  decide!

/-- C3: the 36 indices form 12 triangles, 2 per cube face: on each of the six
faces exactly two triangles `k < l` lie; they share exactly two vertices,
which are diagonally opposite corners of the face; together they reference
exactly the four corners of the face; and every triangle lies on exactly one
face. -/
theorem two_triangles_per_face :
    (∀ f : Face, ∃ k < 12, ∃ l < 12, k < l ∧ faceTriangles f = [k, l] ∧
      (∃ i < 8, ∃ j < 8, sharedVertices k l = [i, j] ∧ diagonal f i j = true) ∧
      (coveredVertices k l).length = 4 ∧ (faceCorners f).length = 4 ∧
      (∀ v < 8, v ∈ coveredVertices k l ↔ v ∈ faceCorners f)) ∧
    (∀ k < 12, ∃ f : Face, ∀ g : Face, triOnFace g k = true ↔ g = f) := by
  decide!

/-- C9: every vertex fetch of the indexed draw stays inside the vertex buffer.
For each index `i` read by the draw, slot 0 reads floats `6i, 6i+1, 6i+2` and
slot 1 reads floats `6i+3, 6i+4, 6i+5` of the vertex array; every byte read is
inside the `sizeof(vertices)` bytes uploaded, every float offset is below 48;
and the two ranges of a vertex have no offset in common. -/
theorem vertex_fetch_in_bounds :
    positionAttrib = ⟨0, 3, 6 * sizeofGLfloat, 0⟩ ∧
    colorAttrib = ⟨1, 3, 6 * sizeofGLfloat, 3 * sizeofGLfloat⟩ ∧
    vertices.length = 48 ∧ (indices.take drawCount).length = 36 ∧
    (∀ i ∈ indices.take drawCount,
      fetchRange positionAttrib i = [6 * i, 6 * i + 1, 6 * i + 2] ∧
      fetchRange colorAttrib i = [6 * i + 3, 6 * i + 4, 6 * i + 5] ∧
      (∀ c < 3, fetchByte positionAttrib i c + sizeofGLfloat ≤ vertexBufferBytes ∧
        fetchByte colorAttrib i c + sizeofGLfloat ≤ vertexBufferBytes) ∧
      (∀ o ∈ fetchRange positionAttrib i ++ fetchRange colorAttrib i, o < 48) ∧
      (∀ o ∈ fetchRange positionAttrib i, o ∉ fetchRange colorAttrib i)) := by
  decide

/-! ## Theorems: control flow -/

/-- An iteration entered with the close flag unset ends with it set exactly
when a close request was seen in it. -/
theorem frameBody_flag {K : Type} [Field K] (m : MathFns K) (env : Env K) (i : Nat) :
    (frameBody m env i false).2 = closeSeen env i := by
  unfold frameBody processInput closeSeen
  cases h : env.escape i <;> simp

/-- The calls of `n + 1` iterations: the first one, then the other `n`. -/
theorem frames_succ {K : Type} [Field K] (m : MathFns K) (env : Env K) (i n : Nat) :
    frames m env i (n + 1) =
      .glfwWindowShouldClose :: ((frameBody m env i false).1 ++ frames m env (i + 1) n) := by
  unfold frames
  rw [List.range_succ_eq_map]
  simp [List.flatMap_cons, List.flatMap_map, Function.comp_def, Nat.add_assoc, Nat.add_comm 1]

/-- Counting calls over `n` iterations that each contain `c` of them. -/
theorem countP_frames {K : Type} [Field K] (m : MathFns K) (env : Env K)
    (p : Call K → Bool) (c : Nat)
    (h : ∀ j, List.countP p (.glfwWindowShouldClose :: (frameBody m env j false).1) = c) :
    ∀ n i, List.countP p (frames m env i n) = n * c := by
  intro n
  induction n with
  | zero => intro i; simp [frames]
  | succ n ih =>
    intro i
    rw [frames_succ, ← List.cons_append, List.countP_append, h, ih]
    ring

/-- What one iteration (test and body) contains: one draw, one present, one
loop test; no release, diagnostic, exit, program switch or flag clearing. -/
theorem frame_counts {K : Type} [Field K] (m : MathFns K) (env : Env K) (j : Nat) :
    List.countP Call.isDraw (.glfwWindowShouldClose :: (frameBody m env j false).1) = 1 ∧
    List.countP Call.isPresent (.glfwWindowShouldClose :: (frameBody m env j false).1) = 1 ∧
    List.countP Call.isLoopTest (.glfwWindowShouldClose :: (frameBody m env j false).1) = 1 ∧
    List.countP Call.isRelease (.glfwWindowShouldClose :: (frameBody m env j false).1) = 0 ∧
    List.countP Call.isCerr (.glfwWindowShouldClose :: (frameBody m env j false).1) = 0 ∧
    List.countP Call.isExit (.glfwWindowShouldClose :: (frameBody m env j false).1) = 0 ∧
    List.countP Call.isUseProgram (.glfwWindowShouldClose :: (frameBody m env j false).1) = 0 ∧
    List.countP Call.isClearClose (.glfwWindowShouldClose :: (frameBody m env j false).1) = 0 := by
  unfold frameBody processInput
  cases env.escape j <;>
    simp [List.countP_cons, Call.isDraw, Call.isPresent, Call.isLoopTest, Call.isRelease,
      Call.isCerr, Call.isExit, Call.isUseProgram, Call.isClearClose]

/-- Calls that no iteration makes do not occur in a run of iterations. -/
theorem filter_frames_nil {K : Type} [Field K] (m : MathFns K) (env : Env K)
    (p : Call K → Bool)
    (h : ∀ j, List.countP p (.glfwWindowShouldClose :: (frameBody m env j false).1) = 0)
    (i n : Nat) : (frames m env i n).filter p = [] := by
  have hc := countP_frames m env p 0 h n i
  rw [Nat.mul_zero, List.countP_eq_zero] at hc
  exact List.filter_eq_nil_iff.mpr hc

/-- What the setup between GLEW and the loop contains. -/
theorem setup_counts {K : Type} (env : Env K) :
    List.countP Call.isDraw (setup env) = 0 ∧
    List.countP Call.isPresent (setup env) = 0 ∧
    List.countP Call.isLoopTest (setup env) = 0 ∧
    List.countP Call.isRelease (setup env) = 0 ∧
    List.countP Call.isExit (setup env) = 0 ∧
    List.countP Call.isClearClose (setup env) = 0 ∧
    (setup env).filter Call.isRelease = [] ∧
    (setup env).filter Call.isUseProgram = [.glUseProgram env.program] := by
  unfold setup compileShaders uploadGeometry
  cases env.vertexCompiled <;> cases env.fragmentCompiled <;> cases env.linked <;>
    simp [List.countP_cons, Call.isDraw, Call.isPresent, Call.isLoopTest, Call.isRelease,
      Call.isExit, Call.isUseProgram, Call.isClearClose]

/-- The calls of `n + 1` iterations: the first `n`, then the last one. -/
theorem frames_succ_last {K : Type} [Field K] (m : MathFns K) (env : Env K) (i n : Nat) :
    frames m env i (n + 1) =
      frames m env i n ++ .glfwWindowShouldClose :: (frameBody m env (i + n) false).1 := by
  unfold frames
  rw [List.range_succ]
  simp [List.flatMap_append]

/-- Iterations in which the escape key is not seen do not write the close flag. -/
theorem filter_setClose_frames {K : Type} [Field K] (m : MathFns K) (env : Env K) :
    ∀ n i, (∀ j < n, env.escape (i + j) = false) →
      (frames m env i n).filter Call.isSetClose = [] := by
  intro n
  induction n with
  | zero => intro i _; simp [frames]
  | succ n ih =>
    intro i h
    rw [frames_succ_last, List.filter_append, ih i (fun j hj => h j (by omega))]
    simp [frameBody, processInput, h n (by omega), Call.isSetClose]

/-- The setup does not write the close flag. -/
theorem setup_setClose {K : Type} (env : Env K) :
    (setup env).filter Call.isSetClose = [] := by
  unfold setup compileShaders uploadGeometry
  cases env.vertexCompiled <;> cases env.fragmentCompiled <;> cases env.linked <;>
    simp [Call.isSetClose]

/-- The loop is left: when the first close request is seen in iteration
`i + n`, the loop started at iteration `i` runs iterations `i .. i + n`,
evaluates its test once more and ends, given `n + 2` units of fuel. -/
theorem frameLoop_leaves {K : Type} [Field K] (m : MathFns K) (env : Env K) :
    ∀ (n i fuel : Nat), (∀ j < n, closeSeen env (i + j) = false) →
      closeSeen env (i + n) = true → n + 2 ≤ fuel →
      frameLoop m env fuel i false =
        some (frames m env i (n + 1) ++ [.glfwWindowShouldClose]) := by
  intro n
  induction n with
  | zero =>
    intro i fuel _ hc hf
    obtain ⟨f, rfl⟩ : ∃ f, fuel = f + 2 := ⟨fuel - 2, by omega⟩
    have hc' : closeSeen env i = true := by simpa using hc
    simp [frameLoop, frameBody_flag, hc', frames, List.range_succ]
  | succ n ih =>
    intro i fuel hno hc hf
    obtain ⟨f, rfl⟩ : ∃ f, fuel = f + 1 := ⟨fuel - 1, by omega⟩
    have h0 : closeSeen env i = false := by simpa using hno 0 (by omega)
    have hrest := ih (i + 1) f
      (fun j hj => by simpa [Nat.add_assoc, Nat.add_comm 1] using hno (j + 1) (by omega))
      (by simpa [Nat.add_assoc, Nat.add_comm 1] using hc) (by omega)
    rw [frameLoop]
    simp only [Bool.false_eq_true, if_false, frameBody_flag, h0, hrest, Option.map_some']
    rw [frames_succ m env i (n + 1)]
    simp

/-- When the loop is left, the last call it made is the loop test. -/
theorem frameLoop_ends_with_test {K : Type} [Field K] (m : MathFns K) (env : Env K) :
    ∀ (fuel i : Nat) (flag : Bool) (l : List (Call K)), frameLoop m env fuel i flag = some l →
      ∃ pre, l = pre ++ [.glfwWindowShouldClose] ∧ List.countP Call.isCerr pre = 0 := by
  intro fuel
  induction fuel with
  | zero => intro i flag l h; simp [frameLoop] at h
  | succ f ih =>
    intro i flag l h
    rw [frameLoop] at h
    cases flag with
    | true =>
      simp at h
      exact ⟨[], by simp [← h]⟩
    | false =>
      simp only [Bool.false_eq_true, if_false, Option.map_eq_some'] at h
      obtain ⟨rest, hrest, rfl⟩ := h
      obtain ⟨pre, rfl, hpre⟩ := ih _ _ _ hrest
      refine ⟨.glfwWindowShouldClose :: ((frameBody m env i false).1 ++ pre), by simp, ?_⟩
      rw [← List.cons_append, List.countP_append, (frame_counts m env i).2.2.2.2.1, hpre]

/-- How `main` ends when the window system, the window and GLEW all come up. -/
theorem main_of_init {K : Type} [Field K] (m : MathFns K) (env : Env K) (fuel : Nat)
    (hinit : env.glfwInitOk = true) (hwin : env.windowOk = true) (hglew : env.glewOk = true) :
    main m env fuel = (frameLoop m env fuel 0 false).map fun loop =>
      ⟨0, start ++ [.glewInit] ++ setup env ++ loop ++ teardown env⟩ := by
  simp [main, initializeGLEW, hinit, hwin, hglew]

/-- C7: whatever the outcomes of the vertex compile, the fragment compile
and the link, `compileShaders` makes no call that ends the process; it writes
one diagnostic for each failed step and none for a step that succeeded; the
only shader deletions are one of the vertex shader and one of the fragment
shader, both after `glLinkProgram`; it returns the handle of
`glCreateProgram`; and `main` passes that handle to `glUseProgram` whatever
the outcomes were, runs its loop and ends with exit code 0. -/
theorem compileShaders_reports_and_continues {K : Type} [Field K] (m : MathFns K)
    (env : Env K) :
    (∀ c ∈ (compileShaders env).1, c.isExit = false) ∧
    ((compileShaders env).1.filter Call.isCerr =
      diagnostic env.vertexCompiled "ERROR::SHADER::VERTEX::COMPILATION_FAILED\n" env.vertexLog ++
      diagnostic env.fragmentCompiled "ERROR::SHADER::FRAGMENT::COMPILATION_FAILED\n"
        env.fragmentLog ++
      diagnostic env.linked "ERROR::SHADER::PROGRAM::LINKING_FAILED\n" env.linkLog) ∧
    ((compileShaders env).1.countP Call.isCerr =
      (if env.vertexCompiled then 0 else 1) + (if env.fragmentCompiled then 0 else 1) +
        (if env.linked then 0 else 1)) ∧
    (∃ pre post, (compileShaders env).1 = pre ++ [.glLinkProgram env.program] ++ post ∧
      pre.filter Call.isDeleteShader = [] ∧
      post.filter Call.isDeleteShader =
        [.glDeleteShader env.vertexShader, .glDeleteShader env.fragmentShader]) ∧
    (compileShaders env).2 = env.program ∧
    (setup env).filter Call.isUseProgram = [.glUseProgram (compileShaders env).2] ∧
    (∀ n fuel, env.glfwInitOk = true → env.windowOk = true → env.glewOk = true →
      (∀ j < n, closeSeen env j = false) → closeSeen env n = true → n + 2 ≤ fuel →
      ∃ o, main m env fuel = some o ∧ o.exitCode = 0 ∧
        o.calls.filter Call.isUseProgram = [.glUseProgram env.program] ∧
        o.calls.countP Call.isExit = 0) := by
  refine ⟨?_, ?_, ?_, ?_, rfl, ?_, ?_⟩
  · unfold compileShaders
    cases env.vertexCompiled <;> cases env.fragmentCompiled <;> cases env.linked <;>
      simp [Call.isExit]
  · unfold compileShaders diagnostic
    cases env.vertexCompiled <;> cases env.fragmentCompiled <;> cases env.linked <;>
      simp [Call.isCerr]
  · unfold compileShaders
    cases env.vertexCompiled <;> cases env.fragmentCompiled <;> cases env.linked <;>
      simp [Call.isCerr, List.countP_cons]
  · refine ⟨[.glCreateShader .vertex, .glShaderSource env.vertexShader .vertex,
        .glCompileShader env.vertexShader, .glGetShaderiv env.vertexShader] ++
        (if !env.vertexCompiled then
          [.glGetShaderInfoLog env.vertexShader,
           .cerr ("ERROR::SHADER::VERTEX::COMPILATION_FAILED\n" ++ env.vertexLog)]
         else []) ++
        [.glCreateShader .fragment, .glShaderSource env.fragmentShader .fragment,
         .glCompileShader env.fragmentShader, .glGetShaderiv env.fragmentShader] ++
        (if !env.fragmentCompiled then
          [.glGetShaderInfoLog env.fragmentShader,
           .cerr ("ERROR::SHADER::FRAGMENT::COMPILATION_FAILED\n" ++ env.fragmentLog)]
         else []) ++
        [.glCreateProgram, .glAttachShader env.program env.vertexShader,
         .glAttachShader env.program env.fragmentShader],
      [.glGetProgramiv env.program] ++
        (if !env.linked then
          [.glGetProgramInfoLog env.program,
           .cerr ("ERROR::SHADER::PROGRAM::LINKING_FAILED\n" ++ env.linkLog)]
         else []) ++
        [.glDeleteShader env.vertexShader, .glDeleteShader env.fragmentShader], ?_, ?_, ?_⟩
    · simp [compileShaders]
    · cases env.vertexCompiled <;> cases env.fragmentCompiled <;> simp [Call.isDeleteShader]
    · cases env.linked <;> simp [Call.isDeleteShader]
  · exact (setup_counts env).2.2.2.2.2.2.2
  · intro n fuel hinit hwin hglew hrun hclose hfuel
    have hloop := frameLoop_leaves m env n 0 fuel (by simpa using hrun) (by simpa using hclose)
      hfuel
    refine ⟨_, by rw [main_of_init m env fuel hinit hwin hglew, hloop]; rfl, rfl, ?_, ?_⟩
    · simp only [List.filter_append,
        filter_frames_nil m env _ (fun j => (frame_counts m env j).2.2.2.2.2.2.1),
        (setup_counts env).2.2.2.2.2.2.2]
      simp [start, teardown, Call.isUseProgram]
    · simp only [List.countP_append,
        countP_frames m env _ 0 (fun j => (frame_counts m env j).2.2.2.2.2.1),
        (setup_counts env).2.2.2.2.1]
      simp [start, teardown, Call.isExit, List.countP_cons]

/-- C8: the frame loop has two states, the close flag unset (running) and
set (closing). Neither `processInput` nor the loop body clears a set flag, the
program never writes `false` to it, and a loop entered with the flag set ends
at its test. When every initialisation succeeds, no close request is seen
before iteration `n` and the escape key is seen in iteration `n`, then
iteration `n` still draws and presents; `main` returns 0; its calls are the
setup, iterations `0 .. n`, one more loop test and the teardown; the loop test
is evaluated `n + 2` times and `n + 1` frames are drawn and presented; the
program writes the close flag once, setting it; and
the releases are exactly one `glDeleteVertexArrays(VAO)`, one
`glDeleteBuffers(VBO)`, one `glDeleteBuffers(EBO)` and one `glfwTerminate`,
the last four calls of the process. -/
theorem escape_leaves_loop_once {K : Type} [Field K] (m : MathFns K) (env : Env K)
    (n fuel : Nat)
    (hinit : env.glfwInitOk = true) (hwin : env.windowOk = true) (hglew : env.glewOk = true)
    (hrun : ∀ j < n, closeSeen env j = false) (hesc : env.escape n = true)
    (hfuel : n + 2 ≤ fuel) :
    (∀ i, (processInput env i true).2 = true ∧ (frameBody m env i true).2 = true) ∧
    (∀ f i, frameLoop m env (f + 1) i true = some [.glfwWindowShouldClose]) ∧
    (∃ rest, frameBody m env n false =
        (.glfwGetKey :: .glfwSetWindowShouldClose true :: rest, true) ∧
      .glDrawElements 36 ∈ rest ∧ .glfwSwapBuffers ∈ rest) ∧
    ∃ o, main m env fuel = some o ∧ o.exitCode = 0 ∧
      o.calls = start ++ [.glewInit] ++ setup env ++
        (frames m env 0 (n + 1) ++ [.glfwWindowShouldClose]) ++ teardown env ∧
      o.calls.countP Call.isLoopTest = n + 2 ∧
      o.calls.countP Call.isDraw = n + 1 ∧
      o.calls.countP Call.isPresent = n + 1 ∧
      o.calls.countP Call.isClearClose = 0 ∧
      o.calls.filter Call.isSetClose = [.glfwSetWindowShouldClose true] ∧
      o.calls.filter Call.isRelease =
        [.glDeleteVertexArrays env.vao, .glDeleteBuffers env.vbo, .glDeleteBuffers env.ebo,
         .glfwTerminate] ∧
      (∃ pre, o.calls = pre ++ [.glDeleteVertexArrays env.vao, .glDeleteBuffers env.vbo,
        .glDeleteBuffers env.ebo, .glfwTerminate]) := by
  have hclose : closeSeen env n = true := by simp [closeSeen, hesc]
  have hloop := frameLoop_leaves m env n 0 fuel (by simpa using hrun) (by simpa using hclose)
    hfuel
  have hno : ∀ j < n, env.escape (0 + j) = false := by
    intro j hj
    have hj := hrun j hj
    simp only [closeSeen, Bool.or_eq_false_iff] at hj
    simpa using hj.1
  refine ⟨?_, ?_, ?_, _, by rw [main_of_init m env fuel hinit hwin hglew, hloop]; rfl, rfl, rfl,
    ?_, ?_, ?_, ?_, ?_, ?_, ?_⟩
  · intro i
    unfold frameBody processInput
    cases env.escape i <;> simp
  · intro f i
    simp [frameLoop]
  · refine ⟨(frameBody m env n false).1.drop 2, ?_, ?_, ?_⟩ <;>
      simp [frameBody, processInput, hesc, drawCount]
  · simp only [List.countP_append,
      countP_frames m env _ 1 (fun j => (frame_counts m env j).2.2.1),
      (setup_counts env).2.2.1]
    simp [start, teardown, Call.isLoopTest, List.countP_cons]
  · simp only [List.countP_append,
      countP_frames m env _ 1 (fun j => (frame_counts m env j).1),
      (setup_counts env).1]
    simp [start, teardown, Call.isDraw, List.countP_cons]
  · simp only [List.countP_append,
      countP_frames m env _ 1 (fun j => (frame_counts m env j).2.1),
      (setup_counts env).2.1]
    simp [start, teardown, Call.isPresent, List.countP_cons]
  · simp only [List.countP_append,
      countP_frames m env _ 0 (fun j => (frame_counts m env j).2.2.2.2.2.2.2),
      (setup_counts env).2.2.2.2.2.1]
    simp [start, teardown, Call.isClearClose, List.countP_cons]
  · simp only [List.filter_append, frames_succ_last, filter_setClose_frames m env n 0 hno,
      setup_setClose]
    simp [start, teardown, frameBody, processInput, hesc, Call.isSetClose]
  · simp only [List.filter_append,
      filter_frames_nil m env _ (fun j => (frame_counts m env j).2.2.2.1),
      (setup_counts env).2.2.2.2.2.2.1]
    simp [start, teardown, Call.isRelease]
  · exact ⟨_, rfl⟩

/-- C6: exit codes. `main` returns -1 after `glfwInit` fails; returns -1,
after `glfwTerminate`, when no window is created; the process exits with -1
when `glewInit` fails. Whenever the process ends, its exit code is -1 exactly
when one of the three initialisations failed and 0 exactly when all
succeeded; with -1 exactly one message was written to the error stream and
nothing was drawn; with 0 the last calls are the final loop test and the
teardown. And when all three succeed and a close request is seen in some
iteration, the process does end, with exit code 0. -/
theorem exit_codes {K : Type} [Field K] (m : MathFns K) (env : Env K) (fuel : Nat) :
    (env.glfwInitOk = false →
      main m env fuel = some ⟨-1, [.glfwInit, .cerr "GLFW initialization failed!"]⟩) ∧
    (env.glfwInitOk = true → env.windowOk = false →
      main m env fuel = some ⟨-1, [.glfwInit, .glfwCreateWindow 800 600 "OpenGL 3D Cube",
        .cerr "Failed to create GLFW window", .glfwTerminate]⟩) ∧
    (env.glfwInitOk = true → env.windowOk = true → env.glewOk = false →
      main m env fuel = some ⟨-1, [.glfwInit, .glfwCreateWindow 800 600 "OpenGL 3D Cube",
        .glfwMakeContextCurrent, .glfwSetFramebufferSizeCallback, .glewInit,
        .cerr "Failed to initialize GLEW", .exit (-1)]⟩) ∧
    (∀ o, main m env fuel = some o →
      (o.exitCode = -1 ↔
        (env.glfwInitOk = false ∨ env.windowOk = false ∨ env.glewOk = false)) ∧
      (o.exitCode = 0 ↔
        (env.glfwInitOk = true ∧ env.windowOk = true ∧ env.glewOk = true)) ∧
      (o.exitCode = -1 → o.calls.countP Call.isCerr = 1 ∧ o.calls.countP Call.isDraw = 0) ∧
      (o.exitCode = 0 → ∃ pre, o.calls = pre ++ [.glfwWindowShouldClose] ++ teardown env)) ∧
    (env.glfwInitOk = true → env.windowOk = true → env.glewOk = true →
      ∀ n, (∀ j < n, closeSeen env j = false) → closeSeen env n = true → n + 2 ≤ fuel →
        ∃ o, main m env fuel = some o ∧ o.exitCode = 0 ∧
          ∃ pre, o.calls = pre ++ [.glfwWindowShouldClose] ++ teardown env) := by
  refine ⟨?_, ?_, ?_, ?_, ?_⟩
  · intro h
    simp [main, h]
  · intro h1 h2
    simp [main, h1, h2]
  · intro h1 h2 h3
    simp [main, initializeGLEW, start, h1, h2, h3]
  · intro o ho
    cases h1 : env.glfwInitOk with
    | false =>
      simp [main, h1] at ho
      subst ho
      simp [List.countP_cons, Call.isCerr, Call.isDraw]
    | true =>
      cases h2 : env.windowOk with
      | false =>
        simp [main, h1, h2] at ho
        subst ho
        simp [List.countP_cons, Call.isCerr, Call.isDraw]
      | true =>
        cases h3 : env.glewOk with
        | false =>
          simp [main, initializeGLEW, start, h1, h2, h3] at ho
          subst ho
          simp [List.countP_cons, Call.isCerr, Call.isDraw]
        | true =>
          rw [main_of_init m env fuel h1 h2 h3] at ho
          simp only [Option.map_eq_some'] at ho
          obtain ⟨loop, hloop, rfl⟩ := ho
          obtain ⟨pre, rfl, -⟩ := frameLoop_ends_with_test m env _ _ _ _ hloop
          refine ⟨by simp, by simp, by simp,
            fun _ => ⟨start ++ [.glewInit] ++ setup env ++ pre, ?_⟩⟩
          simp
  · intro h1 h2 h3 n hrun hclose hfuel
    have hloop := frameLoop_leaves m env n 0 fuel (by simpa using hrun) (by simpa using hclose)
      hfuel
    refine ⟨_, by rw [main_of_init m env fuel h1 h2 h3, hloop]; rfl, rfl,
      start ++ [.glewInit] ++ setup env ++ frames m env 0 (n + 1), ?_⟩
    simp

/-- GLEW failing gives exit code -1 after one message; a run closed by the
escape key gives exit code 0 after the teardown. -/
theorem exit_codes_witness :
    main testMath glewFails 1 = some ⟨-1, [.glfwInit, .glfwCreateWindow 800 600 "OpenGL 3D Cube",
      .glfwMakeContextCurrent, .glfwSetFramebufferSizeCallback, .glewInit,
      .cerr "Failed to initialize GLEW", .exit (-1)]⟩ ∧
    ∃ o, main testMath (escapeAt 1) 3 = some o ∧ o.exitCode = 0 ∧
      ∃ pre, o.calls = pre ++ [.glfwWindowShouldClose] ++ teardown (escapeAt 1) :=
  ⟨(exit_codes testMath glewFails 1).2.2.1 rfl rfl rfl,
    (exit_codes testMath (escapeAt 1) 3).2.2.2.2 rfl rfl rfl 1 (by decide) (by decide)
      (by decide)⟩

/-- A failed fragment compile and a failed link: two diagnostics, the program
handle is still used, and the run ends with exit code 0. -/
theorem compileShaders_reports_and_continues_witness :
    (compileShaders buildFails).1.filter Call.isCerr =
      [.cerr "ERROR::SHADER::FRAGMENT::COMPILATION_FAILED\n0(5) : error C0000: syntax error",
       .cerr "ERROR::SHADER::PROGRAM::LINKING_FAILED\nFragment info"] ∧
    ∃ o, main testMath buildFails 3 = some o ∧ o.exitCode = 0 ∧
      o.calls.filter Call.isUseProgram = [.glUseProgram 3] ∧
      o.calls.countP Call.isExit = 0 :=
  ⟨(compileShaders_reports_and_continues testMath buildFails).2.1,
    (compileShaders_reports_and_continues testMath buildFails).2.2.2.2.2.2 1 3 rfl rfl rfl
      (by decide) (by decide) (by decide)⟩

/-- The escape key seen in the third iteration: three frames are drawn, then
the teardown runs once and the exit code is 0. -/
theorem escape_leaves_loop_once_witness :
    ∃ o, main testMath (escapeAt 2) 4 = some o ∧ o.exitCode = 0 ∧
      o.calls.countP Call.isDraw = 3 ∧
      o.calls.filter Call.isRelease =
        [.glDeleteVertexArrays 1, .glDeleteBuffers 1, .glDeleteBuffers 2, .glfwTerminate] := by
  obtain ⟨-, -, -, o, h1, h2, -, -, h3, -, -, -, h4, -⟩ :=
    escape_leaves_loop_once testMath (escapeAt 2) 2 4 rfl rfl rfl (by decide) (by decide)
      (by decide)
  exact ⟨o, h1, h2, h3, h4⟩

/-! ## Theorems: transforms, in exact real arithmetic -/

/-- Rotating twice about the same unit axis adds the angles. -/
theorem rotate_rotate (R : MathFns ℝ) (hR : R.IsReal)
    (M : Mat4 ℝ) (a b : ℝ) (v n : V3 ℝ) (hv : normalize R v = n)
    (hn : n.x * n.x + n.y * n.y + n.z * n.z = 1) :
    rotate R (rotate R M a v) b v = rotate R M (a + b) v := by
  unfold rotate
  simp only [hv]
  obtain rfl := hR
  simp only [Real.cos_add, Real.sin_add, V4.scale, V4.add, V3.scale]
  rw [Mat4.mk.injEq]
  refine ⟨?_, ?_, ?_, rfl⟩ <;> rw [V4.mk.injEq] <;> refine ⟨?_, ?_, ?_, ?_⟩
  · linear_combination
      (M.c0.x * ((1 - Real.cos a) * (1 - Real.cos b) * n.x * n.x - Real.sin a * Real.sin b) +
        M.c1.x * ((1 - Real.cos a) * (1 - Real.cos b) * n.y * n.x) +
        M.c2.x * ((1 - Real.cos a) * (1 - Real.cos b) * n.z * n.x)) * hn
  · linear_combination
      (M.c0.y * ((1 - Real.cos a) * (1 - Real.cos b) * n.x * n.x - Real.sin a * Real.sin b) +
        M.c1.y * ((1 - Real.cos a) * (1 - Real.cos b) * n.y * n.x) +
        M.c2.y * ((1 - Real.cos a) * (1 - Real.cos b) * n.z * n.x)) * hn
  · linear_combination
      (M.c0.z * ((1 - Real.cos a) * (1 - Real.cos b) * n.x * n.x - Real.sin a * Real.sin b) +
        M.c1.z * ((1 - Real.cos a) * (1 - Real.cos b) * n.y * n.x) +
        M.c2.z * ((1 - Real.cos a) * (1 - Real.cos b) * n.z * n.x)) * hn
  · linear_combination
      (M.c0.w * ((1 - Real.cos a) * (1 - Real.cos b) * n.x * n.x - Real.sin a * Real.sin b) +
        M.c1.w * ((1 - Real.cos a) * (1 - Real.cos b) * n.y * n.x) +
        M.c2.w * ((1 - Real.cos a) * (1 - Real.cos b) * n.z * n.x)) * hn
  · linear_combination
      (M.c0.x * ((1 - Real.cos a) * (1 - Real.cos b) * n.x * n.y) +
        M.c1.x * ((1 - Real.cos a) * (1 - Real.cos b) * n.y * n.y - Real.sin a * Real.sin b) +
        M.c2.x * ((1 - Real.cos a) * (1 - Real.cos b) * n.z * n.y)) * hn
  · linear_combination
      (M.c0.y * ((1 - Real.cos a) * (1 - Real.cos b) * n.x * n.y) +
        M.c1.y * ((1 - Real.cos a) * (1 - Real.cos b) * n.y * n.y - Real.sin a * Real.sin b) +
        M.c2.y * ((1 - Real.cos a) * (1 - Real.cos b) * n.z * n.y)) * hn
  · linear_combination
      (M.c0.z * ((1 - Real.cos a) * (1 - Real.cos b) * n.x * n.y) +
        M.c1.z * ((1 - Real.cos a) * (1 - Real.cos b) * n.y * n.y - Real.sin a * Real.sin b) +
        M.c2.z * ((1 - Real.cos a) * (1 - Real.cos b) * n.z * n.y)) * hn
  · linear_combination
      (M.c0.w * ((1 - Real.cos a) * (1 - Real.cos b) * n.x * n.y) +
        M.c1.w * ((1 - Real.cos a) * (1 - Real.cos b) * n.y * n.y - Real.sin a * Real.sin b) +
        M.c2.w * ((1 - Real.cos a) * (1 - Real.cos b) * n.z * n.y)) * hn
  · linear_combination
      (M.c0.x * ((1 - Real.cos a) * (1 - Real.cos b) * n.x * n.z) +
        M.c1.x * ((1 - Real.cos a) * (1 - Real.cos b) * n.y * n.z) +
        M.c2.x * ((1 - Real.cos a) * (1 - Real.cos b) * n.z * n.z - Real.sin a * Real.sin b)) * hn
  · linear_combination
      (M.c0.y * ((1 - Real.cos a) * (1 - Real.cos b) * n.x * n.z) +
        M.c1.y * ((1 - Real.cos a) * (1 - Real.cos b) * n.y * n.z) +
        M.c2.y * ((1 - Real.cos a) * (1 - Real.cos b) * n.z * n.z - Real.sin a * Real.sin b)) * hn
  · linear_combination
      (M.c0.z * ((1 - Real.cos a) * (1 - Real.cos b) * n.x * n.z) +
        M.c1.z * ((1 - Real.cos a) * (1 - Real.cos b) * n.y * n.z) +
        M.c2.z * ((1 - Real.cos a) * (1 - Real.cos b) * n.z * n.z - Real.sin a * Real.sin b)) * hn
  · linear_combination
      (M.c0.w * ((1 - Real.cos a) * (1 - Real.cos b) * n.x * n.z) +
        M.c1.w * ((1 - Real.cos a) * (1 - Real.cos b) * n.y * n.z) +
        M.c2.w * ((1 - Real.cos a) * (1 - Real.cos b) * n.z * n.z - Real.sin a * Real.sin b)) * hn

/-- The square root of 12. -/
theorem sqrt_twelve : Real.sqrt 12 = 2 * Real.sqrt 3 := by
  rw [show (12 : ℝ) = 2 ^ 2 * 3 by norm_num, Real.sqrt_mul (by positivity),
    Real.sqrt_sq (by norm_num)]

/-- The square root of 5/4, the squared length of the rotation axis. -/
theorem sqrt_five_quarters : Real.sqrt (5 / 4) = Real.sqrt 5 / 2 := by
  rw [Real.sqrt_div (by norm_num), show (4 : ℝ) = 2 ^ 2 by norm_num, Real.sqrt_sq (by norm_num)]

/-- The normalised rotation axis. -/
theorem normalize_rotationAxis (R : MathFns ℝ) (hR : R.IsReal) :
    normalize R (rotationAxis : V3 ℝ) = ⟨1 / Real.sqrt 5, 2 / Real.sqrt 5, 0⟩ := by
  obtain rfl := hR
  have h5 : Real.sqrt 5 ≠ 0 := by positivity
  have h : (0.5 * 0.5 + 1.0 * 1.0 + 0.0 * 0.0 : ℝ) = 5 / 4 := by norm_num
  simp only [normalize, inversesqrt, dot, rotationAxis, V3.scale, h, sqrt_five_quarters]
  rw [V3.mk.injEq]
  refine ⟨?_, ?_, ?_⟩ <;> field_simp <;> norm_num

/-- The normalised rotation axis has length 1. -/
theorem rotationAxis_unit :
    (1 / Real.sqrt 5) * (1 / Real.sqrt 5) + (2 / Real.sqrt 5) * (2 / Real.sqrt 5) + (0 : ℝ) * 0
      = 1 := by
  have h5 : Real.sqrt 5 ≠ 0 := by positivity
  have h : Real.sqrt 5 * Real.sqrt 5 = 5 := Real.mul_self_sqrt (by norm_num)
  field_simp
  linarith

/-- The square root of 6. -/
theorem sqrt_six : Real.sqrt 6 = Real.sqrt 2 * Real.sqrt 3 := by
  rw [← Real.sqrt_mul (by norm_num)]; norm_num

/-- The viewing direction `f` of `lookAt`. -/
theorem normalize_view_dir (R : MathFns ℝ) (hR : R.IsReal) :
    normalize R (V3.sub (⟨0.0, 0.0, 0.0⟩ : V3 ℝ) ⟨2.0, 2.0, 2.0⟩) =
      ⟨-(Real.sqrt 3 / 3), -(Real.sqrt 3 / 3), -(Real.sqrt 3 / 3)⟩ := by
  obtain rfl := hR
  have h3 : Real.sqrt 3 ≠ 0 := by positivity
  have hh : Real.sqrt 3 * Real.sqrt 3 = 3 := Real.mul_self_sqrt (by norm_num)
  have h : ((0.0 - 2.0) * (0.0 - 2.0) + (0.0 - 2.0) * (0.0 - 2.0) + (0.0 - 2.0) * (0.0 - 2.0) : ℝ)
      = 12 := by norm_num
  simp only [normalize, inversesqrt, dot, V3.sub, V3.scale, h, sqrt_twelve]
  rw [V3.mk.injEq]
  refine ⟨?_, ?_, ?_⟩ <;> field_simp <;> linarith

/-- The side direction `s` of `lookAt`. -/
theorem normalize_view_side (R : MathFns ℝ) (hR : R.IsReal) :
    normalize R
        (cross (⟨-(Real.sqrt 3 / 3), -(Real.sqrt 3 / 3), -(Real.sqrt 3 / 3)⟩ : V3 ℝ)
          ⟨0.0, 1.0, 0.0⟩) =
      ⟨Real.sqrt 2 / 2, 0, -(Real.sqrt 2 / 2)⟩ := by
  obtain rfl := hR
  have h2 : Real.sqrt 2 ≠ 0 := by positivity
  have h3 : Real.sqrt 3 ≠ 0 := by positivity
  have hh2 : Real.sqrt 2 * Real.sqrt 2 = 2 := Real.mul_self_sqrt (by norm_num)
  have hh3 : Real.sqrt 3 * Real.sqrt 3 = 3 := Real.mul_self_sqrt (by norm_num)
  have hd : Real.sqrt (6 / 3 ^ 2) = Real.sqrt 2 * Real.sqrt 3 / 3 := by
    rw [Real.sqrt_div (by norm_num), Real.sqrt_sq (by norm_num), sqrt_six]
  have h : ∀ c : V3 ℝ,
      c = cross ⟨-(Real.sqrt 3 / 3), -(Real.sqrt 3 / 3), -(Real.sqrt 3 / 3)⟩
        ⟨0.0, 1.0, 0.0⟩ →
      dot c c = 6 / 3 ^ 2 := by
    rintro c rfl
    simp only [dot, cross]
    norm_num
    linear_combination (2 / 9 : ℝ) * hh3
  simp only [normalize, inversesqrt, h _ rfl, hd]
  simp only [cross, V3.scale]
  rw [V3.mk.injEq]
  refine ⟨?_, ?_, ?_⟩ <;> norm_num <;> field_simp <;>
    linear_combination (-Real.sqrt 3) * hh2

/-- The view matrix. -/
theorem viewMatrix_eq (R : MathFns ℝ) (hR : R.IsReal) :
    viewMatrix R =
      (⟨⟨Real.sqrt 2 / 2, -(Real.sqrt 6 / 6), Real.sqrt 3 / 3, 0⟩,
        ⟨0, Real.sqrt 6 / 3, Real.sqrt 3 / 3, 0⟩,
        ⟨-(Real.sqrt 2 / 2), -(Real.sqrt 6 / 6), Real.sqrt 3 / 3, 0⟩,
        ⟨0, 0, -(2 * Real.sqrt 3), 1⟩⟩ : Mat4 ℝ) := by
  unfold viewMatrix lookAt
  simp only [normalize_view_dir R hR, normalize_view_side R hR, sqrt_six]
  simp only [cross, dot]
  rw [Mat4.mk.injEq]
  refine ⟨?_, ?_, ?_, ?_⟩ <;> rw [V4.mk.injEq] <;> refine ⟨?_, ?_, ?_, ?_⟩ <;> norm_num <;>
    ring

/-- The product of matrices acts on a vector as the factors do in turn. -/
theorem Mat4.mul_mulVec {K : Type} [Field K] (a b : Mat4 K) (v : V4 K) :
    (a.mul b).mulVec v = a.mulVec (b.mulVec v) := by
  simp only [Mat4.mul, Mat4.mulVec, V4.scale, V4.add]
  rw [V4.mk.injEq]
  refine ⟨?_, ?_, ?_, ?_⟩ <;> ring

/-- The vertex stage applies model, then view, then projection. -/
theorem vertexShader_position {K : Type} [Field K] (P V M : Mat4 K) (p c : V3 K) :
    (vertexShader P V M p c).gl_Position = P.mulVec (V.mulVec (M.mulVec (vec4 p 1))) := by
  simp only [vertexShader, Mat4.mul_mulVec]
  norm_num

/-- The projection matrix. -/
theorem projectionMatrix_eq (R : MathFns ℝ) (hR : R.IsReal) :
    projectionMatrix R =
      (⟨⟨1 / (800 / 600 * Real.tan (Real.pi / 8)), 0, 0, 0⟩,
        ⟨0, 1 / Real.tan (Real.pi / 8), 0, 0⟩,
        ⟨0, 0, -(100.1 / 99.9), -1⟩,
        ⟨0, 0, -(20 / 99.9), 0⟩⟩ : Mat4 ℝ) := by
  obtain rfl := hR
  have h : (45.0 * (Real.pi / 180) / 2 : ℝ) = Real.pi / 8 := by norm_num; ring
  simp only [projectionMatrix, perspective, radians, h]
  rw [Mat4.mk.injEq]
  refine ⟨?_, ?_, ?_, ?_⟩ <;> rw [V4.mk.injEq] <;> refine ⟨?_, ?_, ?_, ?_⟩ <;> norm_num

/-- Rotating by the angle 0 changes nothing. -/
theorem rotate_zero (R : MathFns ℝ) (hR : R.IsReal) (M : Mat4 ℝ) (v : V3 ℝ) :
    rotate R M 0 v = M := by
  obtain rfl := hR
  unfold rotate
  simp [V4.scale, V4.add, V3.scale]

/-- Vertex 6 is the corner `(0.5, 0.5, 0.5)`. -/
theorem position_cast_six : ((position 6).cast : V3 ℝ) = ⟨0.5, 0.5, 0.5⟩ := by
  have h : position 6 = ⟨0.5, 0.5, 0.5⟩ := by decide!
  rw [h]
  simp only [V3.cast]
  norm_num

/-- C4: the vertex stage computes projection · (view · (model · (pos, 1)))
and passes the colour through; view is `lookAt` with eye (2,2,2), centre
(0,0,0), up (0,1,0) and projection is `perspective` with 45° vertical field
of view, aspect 800/600, near 0.1 and far 100. In exact real arithmetic, with
the identity as model matrix, the cube vertex (0.5, 0.5, 0.5) (vertex 6) has
clip coordinate (0, 0, (100.1/99.9)·(3√3/2) − 20/99.9, 3√3/2), whatever the
field of view and the aspect, and its `w` is positive. The three matrices are
the ones every iteration uploads, in the order model, view, projection. -/
theorem clip_position_of_corner :
    let R : MathFns ℝ := ⟨Real.sqrt, Real.sin, Real.cos, Real.tan, Real.pi⟩
    (∀ (P V M : Mat4 ℝ) (p c : V3 ℝ),
      (vertexShader P V M p c).gl_Position = P.mulVec (V.mulVec (M.mulVec (vec4 p 1))) ∧
      (vertexShader P V M p c).fragColor = c) ∧
    (∀ (env : Env ℝ) (i : Nat) (flag : Bool),
      [Call.glUniformMatrix4fv env.modelLoc (modelMatrix R (env.time i)),
        Call.glUniformMatrix4fv env.viewLoc (viewMatrix R),
        Call.glUniformMatrix4fv env.projectionLoc (projectionMatrix R)] <:+:
        (frameBody R env i flag).1) ∧
    (viewMatrix R = lookAt R ⟨2, 2, 2⟩ ⟨0, 0, 0⟩ ⟨0, 1, 0⟩) ∧
    (projectionMatrix R = perspective R (45 * (Real.pi / 180)) (800 / 600) 0.1 100) ∧
    ((position 6).cast : V3 ℝ) = ⟨0.5, 0.5, 0.5⟩ ∧
    (vertexShader (projectionMatrix R) (viewMatrix R) (Mat4.diag 1)
        (position 6).cast (color 6).cast).gl_Position =
      ⟨0, 0, 100.1 / 99.9 * (3 * Real.sqrt 3 / 2) - 20 / 99.9, 3 * Real.sqrt 3 / 2⟩ ∧
    (∀ fovy aspect : ℝ,
      (vertexShader (perspective R fovy aspect 0.1 100) (viewMatrix R) (Mat4.diag 1)
        (position 6).cast (color 6).cast).gl_Position =
      ⟨0, 0, 100.1 / 99.9 * (3 * Real.sqrt 3 / 2) - 20 / 99.9, 3 * Real.sqrt 3 / 2⟩) ∧
    0 < 3 * Real.sqrt 3 / 2 := by
  intro R
  have hR : R.IsReal := rfl
  refine ⟨fun P V M p c => ⟨vertexShader_position P V M p c, rfl⟩, ?_, ?_, ?_,
    position_cast_six, ?_, ?_, by positivity⟩
  · intro env i flag
    refine ⟨(processInput env i flag).1 ++
        [.glClearColor 0.1 0.1 0.1 1.0, .glClear, .glfwGetTime],
      [.glBindVertexArray env.vao, .glDrawElements drawCount, .glBindVertexArray 0,
        .glfwSwapBuffers, .glfwPollEvents], ?_⟩
    simp [frameBody]
  · simp only [viewMatrix]; norm_num
  · simp only [projectionMatrix, radians]; norm_num
  · rw [vertexShader_position, projectionMatrix_eq R hR, viewMatrix_eq R hR, position_cast_six]
    simp only [Mat4.mulVec, Mat4.diag, vec4, V4.scale, V4.add]
    rw [V4.mk.injEq]
    refine ⟨?_, ?_, ?_, ?_⟩ <;> ring
  · intro fovy aspect
    rw [vertexShader_position, viewMatrix_eq R hR, position_cast_six]
    simp only [perspective, Mat4.mulVec, Mat4.diag, vec4, V4.scale, V4.add]
    rw [V4.mk.injEq]
    refine ⟨?_, ?_, ?_, ?_⟩ <;> ring

/-- The model matrix at time `t`, entry by entry. -/
theorem modelMatrix_eq (R : MathFns ℝ) (hR : R.IsReal) (t : ℝ) :
    modelMatrix R t =
      (⟨⟨Real.cos t + (1 - Real.cos t) / 5, 2 * (1 - Real.cos t) / 5,
          -(2 / Real.sqrt 5 * Real.sin t), 0⟩,
        ⟨2 * (1 - Real.cos t) / 5, Real.cos t + 4 * (1 - Real.cos t) / 5,
          1 / Real.sqrt 5 * Real.sin t, 0⟩,
        ⟨2 / Real.sqrt 5 * Real.sin t, -(1 / Real.sqrt 5 * Real.sin t), Real.cos t, 0⟩,
        ⟨0, 0, 0, 1⟩⟩ : Mat4 ℝ) := by
  have h5 : Real.sqrt 5 ≠ 0 := by positivity
  have h : Real.sqrt 5 * Real.sqrt 5 = 5 := Real.mul_self_sqrt (by norm_num)
  unfold modelMatrix rotate
  simp only [normalize_rotationAxis R hR, Mat4.diag, V4.scale, V4.add, V3.scale]
  obtain rfl := hR
  rw [Mat4.mk.injEq]
  refine ⟨?_, ?_, ?_, ?_⟩ <;> rw [V4.mk.injEq] <;> refine ⟨?_, ?_, ?_, ?_⟩ <;> norm_num <;>
    field_simp <;> ring_nf

/-- Rotating `M` is multiplying it by the rotation of the identity. -/
theorem rotate_eq_mul {K : Type} [Field K] (R : MathFns K) (M : Mat4 K) (a : K) (v : V3 K) :
    rotate R M a v = M.mul (rotate R (Mat4.diag 1) a v) := by
  unfold rotate
  simp only [Mat4.mul, Mat4.mulVec, Mat4.diag, V4.scale, V4.add, V3.scale]
  rw [Mat4.mk.injEq]
  refine ⟨?_, ?_, ?_, ?_⟩ <;> rw [V4.mk.injEq] <;> refine ⟨?_, ?_, ?_, ?_⟩ <;> ring

/-- C5: in exact real arithmetic the model matrix is a function of the
elapsed time `t` alone, the rotation of the identity by the angle `t` about
the axis (0.5, 1, 0), and it is the matrix uploaded in an iteration whose
`glfwGetTime()` is `t`. At `t = 0` it is the identity. For any times `t1`,
`t2` the matrix at `t2` is the matrix at `t1` rotated further by `t2 - t1`
about the same axis (equivalently, multiplied by the model matrix of
`t2 - t1`). The axis is left fixed, and the vector (0, 0, 1), which is
perpendicular to the axis, is turned by exactly the angle `t`. -/
theorem model_matrix_rotates_by_elapsed_time :
    let R : MathFns ℝ := ⟨Real.sqrt, Real.sin, Real.cos, Real.tan, Real.pi⟩
    (∀ t : ℝ, modelMatrix R t = rotate R (Mat4.diag 1) t ⟨0.5, 1, 0⟩) ∧
    (∀ (env : Env ℝ) (i : Nat) (flag : Bool),
      Call.glUniformMatrix4fv env.modelLoc (modelMatrix R (env.time i)) ∈
        (frameBody R env i flag).1) ∧
    modelMatrix R 0 = Mat4.diag 1 ∧
    (∀ t1 t2 : ℝ, modelMatrix R t2 = rotate R (modelMatrix R t1) (t2 - t1) ⟨0.5, 1, 0⟩) ∧
    (∀ t1 t2 : ℝ, modelMatrix R t2 = (modelMatrix R t1).mul (modelMatrix R (t2 - t1))) ∧
    (∀ t : ℝ, (modelMatrix R t).mulVec ⟨0.5, 1, 0, 1⟩ = ⟨0.5, 1, 0, 1⟩) ∧
    (∀ t : ℝ, (modelMatrix R t).mulVec ⟨0, 0, 1, 1⟩ =
      ⟨2 / Real.sqrt 5 * Real.sin t, -(1 / Real.sqrt 5 * Real.sin t), Real.cos t, 1⟩) := by
  intro R
  have hR : R.IsReal := rfl
  have hax : (⟨0.5, 1, 0⟩ : V3 ℝ) = rotationAxis := by
    simp only [rotationAxis]; norm_num
  have hone : (Mat4.diag 1.0 : Mat4 ℝ) = Mat4.diag 1 := by norm_num
  have hcomp : ∀ t1 t2 : ℝ,
      modelMatrix R t2 = rotate R (modelMatrix R t1) (t2 - t1) rotationAxis := by
    intro t1 t2
    unfold modelMatrix
    rw [rotate_rotate R hR _ t1 (t2 - t1) _ _ (normalize_rotationAxis R hR) rotationAxis_unit]
    congr 1
    ring
  refine ⟨?_, ?_, ?_, ?_, ?_, ?_, ?_⟩
  · intro t
    rw [hax, ← hone]
    rfl
  · intro env i flag
    simp [frameBody]
  · unfold modelMatrix
    rw [rotate_zero R hR, hone]
  · intro t1 t2
    rw [hax]
    exact hcomp t1 t2
  · intro t1 t2
    rw [hcomp t1 t2, rotate_eq_mul]
    unfold modelMatrix
    rw [hone]
  · intro t
    rw [modelMatrix_eq R hR]
    simp only [Mat4.mulVec, V4.scale, V4.add]
    rw [V4.mk.injEq]
    refine ⟨?_, ?_, ?_, ?_⟩ <;> ring
  · intro t
    rw [modelMatrix_eq R hR]
    simp only [Mat4.mulVec, V4.scale, V4.add]
    rw [V4.mk.injEq]
    refine ⟨?_, ?_, ?_, ?_⟩ <;> ring

/-- A rotation of the identity about a unit axis keeps the distance of a point
from the origin, and the homogeneous coordinate. -/
theorem rotate_preserves_norm (R : MathFns ℝ) (hR : R.IsReal) (t : ℝ) (v n p : V3 ℝ)
    (hv : normalize R v = n) (hn : n.x * n.x + n.y * n.y + n.z * n.z = 1) :
    ((rotate R (Mat4.diag 1) t v).mulVec (vec4 p 1)).x ^ 2 +
      ((rotate R (Mat4.diag 1) t v).mulVec (vec4 p 1)).y ^ 2 +
      ((rotate R (Mat4.diag 1) t v).mulVec (vec4 p 1)).z ^ 2 = dot p p ∧
    ((rotate R (Mat4.diag 1) t v).mulVec (vec4 p 1)).w = 1 := by
  have hcs : Real.cos t ^ 2 + Real.sin t ^ 2 = 1 := Real.cos_sq_add_sin_sq t
  unfold rotate
  simp only [hv]
  obtain rfl := hR
  simp only [Mat4.mulVec, Mat4.diag, vec4, V4.scale, V4.add, V3.scale, dot]
  refine ⟨?_, by ring⟩
  linear_combination
    ((1 - Real.cos t) ^ 2 * (n.x * p.x + n.y * p.y + n.z * p.z) ^ 2 +
      Real.sin t ^ 2 * (p.x * p.x + p.y * p.y + p.z * p.z)) * hn +
    ((p.x * p.x + p.y * p.y + p.z * p.z) - (n.x * p.x + n.y * p.y + n.z * p.z) ^ 2) * hcs

/-- The squared length of a point does not depend on the scalar type. -/
theorem dot_cast (p : V3 ℚ) : dot (p.cast : V3 ℝ) p.cast = ((dot p p : ℚ) : ℝ) := by
  simp only [dot, V3.cast]
  push_cast
  ring

/-- Every cube vertex has squared distance 3/4 from the origin. -/
theorem position_norm (i : Nat) (hi : i < 8) :
    dot ((position i).cast : V3 ℝ) (position i).cast = 3 / 4 := by
  have h : ∀ j < 8, dot (position j) (position j) = 3 / 4 := by decide!
  rw [dot_cast, h i hi]
  norm_num

/-- The square root of 3 lies between 1 and 2. -/
theorem sqrt_three_bounds : 1 < Real.sqrt 3 ∧ Real.sqrt 3 < 2 := by
  constructor
  · rw [Real.lt_sqrt (by norm_num)]; norm_num
  · rw [Real.sqrt_lt' (by norm_num)]; norm_num

/-- View-space depth of a point of the model in terms of its rotated position. -/
theorem viewSpace_z (R : MathFns ℝ) (hR : R.IsReal) (t : ℝ) (p : V3 ℝ) :
    (viewSpace R t p).z =
      Real.sqrt 3 / 3 * (((modelMatrix R t).mulVec (vec4 p 1)).x +
        ((modelMatrix R t).mulVec (vec4 p 1)).y + ((modelMatrix R t).mulVec (vec4 p 1)).z) -
      2 * Real.sqrt 3 := by
  have hw := (rotate_preserves_norm R hR t rotationAxis _ p (normalize_rotationAxis R hR)
    rotationAxis_unit).2
  have hone : (Mat4.diag 1.0 : Mat4 ℝ) = Mat4.diag 1 := by norm_num
  have hm : modelMatrix R t = rotate R (Mat4.diag 1) t rotationAxis := by
    rw [← hone]; rfl
  rw [← hm] at hw
  unfold viewSpace
  rw [viewMatrix_eq R hR, show (1.0 : ℝ) = 1 by norm_num]
  generalize (modelMatrix R t).mulVec (vec4 p 1) = q at hw ⊢
  simp only [Mat4.mulVec, V4.scale, V4.add, hw]
  ring

/-- Depth of one cube vertex at time `t`: the bounds, the clip coordinate `w`
and the distances they follow from. -/
theorem depth_of_vertex (R : MathFns ℝ) (hR : R.IsReal) (t : ℝ) (i : Nat) (hi : i < 8) :
    2 * Real.sqrt 3 - Real.sqrt 3 / 2 ≤ -(viewSpace R t (position i).cast).z ∧
    -(viewSpace R t (position i).cast).z ≤ 2 * Real.sqrt 3 + Real.sqrt 3 / 2 ∧
    0.1 < -(viewSpace R t (position i).cast).z ∧
    -(viewSpace R t (position i).cast).z < 100 ∧
    (vertexShader (projectionMatrix R) (viewMatrix R) (modelMatrix R t)
      (position i).cast (color i).cast).gl_Position.w = -(viewSpace R t (position i).cast).z ∧
    0 < (vertexShader (projectionMatrix R) (viewMatrix R) (modelMatrix R t)
      (position i).cast (color i).cast).gl_Position.w ∧
    dot ((position i).cast : V3 ℝ) (position i).cast = (Real.sqrt 3 / 2) ^ 2 ∧
    ((modelMatrix R t).mulVec (vec4 (position i).cast 1)).x ^ 2 +
      ((modelMatrix R t).mulVec (vec4 (position i).cast 1)).y ^ 2 +
      ((modelMatrix R t).mulVec (vec4 (position i).cast 1)).z ^ 2 = (Real.sqrt 3 / 2) ^ 2 ∧
    dot (⟨2, 2, 2⟩ : V3 ℝ) ⟨2, 2, 2⟩ = (2 * Real.sqrt 3) ^ 2 := by
  have h3 : Real.sqrt 3 ^ 2 = 3 := Real.sq_sqrt (by norm_num)
  obtain ⟨hlo, hhi⟩ := sqrt_three_bounds
  have hone : (Mat4.diag 1.0 : Mat4 ℝ) = Mat4.diag 1 := by norm_num
  have hm : modelMatrix R t = rotate R (Mat4.diag 1) t rotationAxis := by
    rw [← hone]; rfl
  have hq := (rotate_preserves_norm R hR t rotationAxis _ (position i).cast
    (normalize_rotationAxis R hR) rotationAxis_unit).1
  rw [← hm, position_norm i hi] at hq
  have hz := viewSpace_z R hR t (position i).cast
  have hclip : (vertexShader (projectionMatrix R) (viewMatrix R) (modelMatrix R t)
      (position i).cast (color i).cast).gl_Position.w = -(viewSpace R t (position i).cast).z := by
    rw [vertexShader_position, projectionMatrix_eq R hR]
    unfold viewSpace
    rw [show (1.0 : ℝ) = 1 by norm_num]
    simp only [Mat4.mulVec, V4.scale, V4.add]
    ring
  rw [hclip, hz]
  generalize (modelMatrix R t).mulVec (vec4 (position i).cast 1) = q at hq ⊢
  have hS2 : (q.x + q.y + q.z) ^ 2 ≤ 9 / 4 := by
    nlinarith [sq_nonneg (q.x - q.y), sq_nonneg (q.y - q.z), sq_nonneg (q.x - q.z)]
  have hSu : q.x + q.y + q.z ≤ 3 / 2 := by nlinarith
  have hSl : -(3 / 2) ≤ q.x + q.y + q.z := by nlinarith
  have hu : Real.sqrt 3 * (q.x + q.y + q.z) ≤ Real.sqrt 3 * (3 / 2) :=
    mul_le_mul_of_nonneg_left hSu (by positivity)
  have hl : Real.sqrt 3 * -(3 / 2) ≤ Real.sqrt 3 * (q.x + q.y + q.z) :=
    mul_le_mul_of_nonneg_left hSl (by positivity)
  have h34 : (Real.sqrt 3 / 2) ^ 2 = 3 / 4 := by rw [div_pow, h3]; norm_num
  have heye : dot (⟨2, 2, 2⟩ : V3 ℝ) ⟨2, 2, 2⟩ = (2 * Real.sqrt 3) ^ 2 := by
    simp only [dot]; rw [mul_pow, h3]; norm_num
  exact ⟨by linarith, by linarith, by norm_num; linarith, by linarith, rfl, by linarith,
    by rw [position_norm i hi, h34], by rw [hq, h34], heye⟩

/-- The indices read by the draw are below 8. -/
theorem index_lt (j : Nat) (hj : j ∈ indices.take drawCount) : j < 8 := by
  have h : ∀ k ∈ indices.take drawCount, k < 8 := by decide
  exact h j hj

/-- C10: in exact real arithmetic, at every time `t` and for each of the 8
cube vertices, the view-space depth `d = -(view · model(t) · (p, 1)).z` lies
between 2√3 − √3/2 and 2√3 + √3/2, hence strictly between the near plane 0.1
and the far plane 100; the clip coordinate `w` equals `d` and is positive.
The vertex is at distance √3/2 from the origin, before and after the
rotation, and the camera is at distance 2√3. Hence every vertex the indexed
draw puts out has its `w` strictly between 0.1 and 100. -/
theorem depth_between_planes (t : ℝ) :
    let R : MathFns ℝ := ⟨Real.sqrt, Real.sin, Real.cos, Real.tan, Real.pi⟩
    (∀ i < 8,
      2 * Real.sqrt 3 - Real.sqrt 3 / 2 ≤ -(viewSpace R t (position i).cast).z ∧
      -(viewSpace R t (position i).cast).z ≤ 2 * Real.sqrt 3 + Real.sqrt 3 / 2 ∧
      0.1 < -(viewSpace R t (position i).cast).z ∧
      -(viewSpace R t (position i).cast).z < 100 ∧
      (vertexShader (projectionMatrix R) (viewMatrix R) (modelMatrix R t)
        (position i).cast (color i).cast).gl_Position.w = -(viewSpace R t (position i).cast).z ∧
      0 < (vertexShader (projectionMatrix R) (viewMatrix R) (modelMatrix R t)
        (position i).cast (color i).cast).gl_Position.w ∧
      dot ((position i).cast : V3 ℝ) (position i).cast = (Real.sqrt 3 / 2) ^ 2 ∧
      ((modelMatrix R t).mulVec (vec4 (position i).cast 1)).x ^ 2 +
        ((modelMatrix R t).mulVec (vec4 (position i).cast 1)).y ^ 2 +
        ((modelMatrix R t).mulVec (vec4 (position i).cast 1)).z ^ 2 = (Real.sqrt 3 / 2) ^ 2) ∧
    dot (⟨2, 2, 2⟩ : V3 ℝ) ⟨2, 2, 2⟩ = (2 * Real.sqrt 3) ^ 2 ∧
    (∀ o ∈ drawElements (projectionMatrix R) (viewMatrix R) (modelMatrix R t),
      0.1 < o.gl_Position.w ∧ o.gl_Position.w < 100) := by
  intro R
  have h := fun i hi => depth_of_vertex R rfl t i hi
  refine ⟨fun i hi => ?_, (h 0 (by decide)).2.2.2.2.2.2.2.2, ?_⟩
  · obtain ⟨h1, h2, h3, h4, h5, h6, h7, h8, -⟩ := h i hi
    exact ⟨h1, h2, h3, h4, h5, h6, h7, h8⟩
  · intro o ho
    simp only [drawElements, List.mem_map] at ho
    obtain ⟨j, hj, rfl⟩ := ho
    obtain ⟨-, -, h3, h4, h5, -⟩ := h j (index_lt j hj)
    rw [h5]
    exact ⟨h3, h4⟩

/-- Vertex 6 at time 0: its depth is within the bounds, between the planes. -/
theorem depth_between_planes_witness :
    let R : MathFns ℝ := ⟨Real.sqrt, Real.sin, Real.cos, Real.tan, Real.pi⟩
    6 < 8 ∧
    2 * Real.sqrt 3 - Real.sqrt 3 / 2 ≤ -(viewSpace R 0 (position 6).cast).z ∧
    -(viewSpace R 0 (position 6).cast).z ≤ 2 * Real.sqrt 3 + Real.sqrt 3 / 2 ∧
    0.1 < -(viewSpace R 0 (position 6).cast).z ∧
    -(viewSpace R 0 (position 6).cast).z < 100 :=
  ⟨by decide, ((depth_between_planes 0).1 6 (by decide)).1,
    ((depth_between_planes 0).1 6 (by decide)).2.1,
    ((depth_between_planes 0).1 6 (by decide)).2.2.1,
    ((depth_between_planes 0).1 6 (by decide)).2.2.2.1⟩

end Cube
